import Mathlib

/-!
# RoostaBoosta HTTP client: shallow embedding and verification

This file embeds the message model, the resumable serialization engine and the
client protocol of the RoostaBoosta repository in Lean 4 and settles the frozen
claims C1..C10 about them.

Sources embedded:
- `src/HTTPClient.hpp` (HTTPMethod, HTTPStatusCode, header structs, HTTPRequest)
- `src/HTTPSerializationHandle.ipp` (the serialization handles; this is the
  complete revision of the serializer — the copies inside `HTTPClient.hpp` are
  an earlier non-compiling draft)
- `src/WifiClient.cpp` (WifiClient::Request, WifiClient::read, readCMD_)
- `src/ErrorStatus.hpp` (ErrorStatus)

Machine integers: all the sizes and indices involved are `std::size_t` counters
that only ever grow by small bounded amounts from 0, far below 2^64, so they
are modelled as `Nat` without wrap-around.
-/

namespace RB

/-! ## Error model

`ErrorStatus` (src/ErrorStatus.hpp) wraps an `mbed_error_status_t`, a message
and a value.  The mbed error-code enumerators live in the external
`mbed_error.h`; codes are modelled as an enumeration, keeping exactly the
distinctions the repository relies on (in particular
`MBED_ERROR_CODE_ETIMEDOUT`, a POSIX code with value 110, is a different
enumerator from the system code `MBED_ERROR_CODE_TIME_OUT`).  The contextual
conversion `operator bool` of `ErrorStatus` is `status < 0`; per the mbed
contract `MBED_SUCCESS` (0) is non-negative while error codes produce negative
statuses, so it is modelled as `code ≠ success`. -/

/-- mbed error codes used by the repository (modelling the external
`mbed_error.h` enumerators; distinct constructors model distinct enumerator
values). `success` is `MBED_SUCCESS`, `einval` is `MBED_ERROR_CODE_EINVAL`,
`enodata` is `MBED_ERROR_CODE_ENODATA`, `etimedout` is
`MBED_ERROR_CODE_ETIMEDOUT` (POSIX 110), `timeOut` is
`MBED_ERROR_CODE_TIME_OUT` (system code, distinct from `etimedout`). -/
inductive MbedErrorCode where
  | success
  | einval
  | enodata
  | etimedout
  | timeOut
  | invalidFormat
  | rtosFlagsEvent
  | notRecoverable
  | assertionFailed
  deriving DecidableEq, Repr

/-- `rb::ErrorStatus` (src/ErrorStatus.hpp lines 28-92): an mbed status code, a
message and a value. -/
structure ErrorStatus where
  code : MbedErrorCode
  message : String
  value : Nat
  deriving DecidableEq, Repr

/-- The default-constructed `ErrorStatus{}` (code `MBED_SUCCESS`, message NULL
modelled as "", value 0). -/
def ErrorStatus.ok : ErrorStatus := ⟨.success, "", 0⟩

/-- `ErrorStatus::operator bool` (src/ErrorStatus.hpp line 59): true exactly
when the status denotes an error. -/
def ErrorStatus.isError (e : ErrorStatus) : Bool := e.code ≠ .success

/-! ## Message model: HTTPMethod (src/HTTPClient.hpp lines 264-873) -/

/-- The anonymous method enum of `HTTPMethod` (src/HTTPClient.hpp lines
283-322). `INVALID` is `INVALID_`, `EXTENSION` is `EXTENSION_METHOD`. -/
inductive MethodCode where
  | INVALID
  | CONNECT
  | DELETE
  | GET
  | HEAD
  | OPTIONS
  | POST
  | PUT
  | TRACE
  | EXTENSION
  deriving DecidableEq, Repr

/-- `rb::HTTPMethod`: a method code plus the raw token (src/HTTPClient.hpp
lines 324-326). -/
structure HTTPMethod where
  code : MethodCode
  methodRaw : String
  deriving DecidableEq, Repr

/-- The `tolower` lambda of the `HTTPMethod` constructor (src/HTTPClient.hpp
lines 801-803). -/
def methodToLower (c : Char) : Char :=
  if 'A' ≤ c ∧ c ≤ 'Z' then Char.ofNat (c.toNat + 32) else c

/-- The `iequals` lambda of the `HTTPMethod` constructor (src/HTTPClient.hpp
lines 799-812): size equality plus pointwise case-insensitive equality. -/
def iequals (a b : String) : Bool :=
  a.data.map methodToLower = b.data.map methodToLower

/-- The `HTTPMethod` constructor from a case-insensitive token
(src/HTTPClient.hpp lines 794-835): empty token is invalid, one of the eight
standard tokens maps to its code, anything else is an extension method. -/
def HTTPMethod.ofToken (s : String) : HTTPMethod :=
  if s.isEmpty then ⟨.INVALID, s⟩
  else if iequals s "GET" then ⟨.GET, s⟩
  else if iequals s "POST" then ⟨.POST, s⟩
  else if iequals s "PUT" then ⟨.PUT, s⟩
  else if iequals s "DELETE" then ⟨.DELETE, s⟩
  else if iequals s "HEAD" then ⟨.HEAD, s⟩
  else if iequals s "OPTIONS" then ⟨.OPTIONS, s⟩
  else if iequals s "CONNECT" then ⟨.CONNECT, s⟩
  else if iequals s "TRACE" then ⟨.TRACE, s⟩
  else ⟨.EXTENSION, s⟩

/-- `HTTPMethod::method()` (src/HTTPClient.hpp lines 837-862): canonical text
for standard codes, empty for invalid, the raw token for extensions. -/
def HTTPMethod.methodStr (m : HTTPMethod) : String :=
  match m.code with
  | .INVALID => ""
  | .GET => "GET"
  | .POST => "POST"
  | .PUT => "PUT"
  | .DELETE => "DELETE"
  | .HEAD => "HEAD"
  | .OPTIONS => "OPTIONS"
  | .CONNECT => "CONNECT"
  | .TRACE => "TRACE"
  | .EXTENSION => m.methodRaw

/-- `HTTPMethod::valid()` (src/HTTPClient.hpp line 279): `code_ != INVALID_`. -/
def HTTPMethod.valid (m : HTTPMethod) : Bool := m.code ≠ .INVALID

/-! ## Message model: HTTPStatusCode (src/HTTPClient.hpp lines 167-260, 604-740) -/

/-- `rb::HTTPStatusCode`: an `int` code and a reason phrase
(src/HTTPClient.hpp lines 257-259).  The constructor defaults are code
`INVALID_` (0) and phrase `"Unknown"` (lines 173-179). -/
structure HTTPStatusCode where
  codeVal : Int
  reasonPhrase : String
  deriving DecidableEq, Repr

/-- The `HTTPStatusCode` constructor (src/HTTPClient.hpp lines 606-612). -/
def HTTPStatusCode.mk' (code : Int) (phrase : String := "Unknown") : HTTPStatusCode :=
  ⟨code, phrase⟩

/-- `HTTPStatusCode::informational()` (lines 621-625): `CONTINUE` (100) to
`SWITCHING_PROTOCOLS` (101). -/
def HTTPStatusCode.informational (s : HTTPStatusCode) : Bool :=
  100 ≤ s.codeVal ∧ s.codeVal ≤ 101

/-- `HTTPStatusCode::success()` (lines 627-631): `OK` (200) to
`TEMPORARY_REDIRECT` (307). -/
def HTTPStatusCode.success (s : HTTPStatusCode) : Bool :=
  200 ≤ s.codeVal ∧ s.codeVal ≤ 307

/-- `HTTPStatusCode::redirection()` (lines 633-637): `MULTIPLE_CHOICES` (300)
to `TEMPORARY_REDIRECT` (307). -/
def HTTPStatusCode.redirection (s : HTTPStatusCode) : Bool :=
  300 ≤ s.codeVal ∧ s.codeVal ≤ 307

/-- `HTTPStatusCode::client_error()` (lines 639-643): `BAD_REQUEST` (400) to
`EXPECTATION_FAILED` (417). -/
def HTTPStatusCode.clientError (s : HTTPStatusCode) : Bool :=
  400 ≤ s.codeVal ∧ s.codeVal ≤ 417

/-- `HTTPStatusCode::server_error()` (lines 645-649): `INTERNAL_SERVER_ERROR`
(500) to `HTTP_VERSION_NOT_SUPPORTED` (505). -/
def HTTPStatusCode.serverError (s : HTTPStatusCode) : Bool :=
  500 ≤ s.codeVal ∧ s.codeVal ≤ 505

/-- `HTTPStatusCode::standard()` (lines 614-619). -/
def HTTPStatusCode.standard (s : HTTPStatusCode) : Bool :=
  s.informational || s.success || s.redirection || s.clientError || s.serverError

/-- `HTTPStatusCode::valid()` (line 192): `code_ != INVALID_`. -/
def HTTPStatusCode.valid (s : HTTPStatusCode) : Bool := s.codeVal ≠ 0

/-- `HTTPStatusCode::reason()` (src/HTTPClient.hpp lines 651-740): canonical
phrase for known codes, else the supplied phrase if non-empty, else
"Unknown". -/
def HTTPStatusCode.reason (s : HTTPStatusCode) : String :=
  if s.codeVal = 0 then "Invalid Status Code"
  else if s.codeVal = 100 then "Continue"
  else if s.codeVal = 101 then "Switching Protocols"
  else if s.codeVal = 200 then "OK"
  else if s.codeVal = 201 then "Created"
  else if s.codeVal = 202 then "Accepted"
  else if s.codeVal = 203 then "Non-Authoritative Information"
  else if s.codeVal = 204 then "No Content"
  else if s.codeVal = 205 then "Reset Content"
  else if s.codeVal = 206 then "Partial Content"
  else if s.codeVal = 300 then "Multiple Choices"
  else if s.codeVal = 301 then "Moved Permanently"
  else if s.codeVal = 302 then "Found"
  else if s.codeVal = 303 then "See Other"
  else if s.codeVal = 304 then "Not Modified"
  else if s.codeVal = 305 then "Use Proxy"
  else if s.codeVal = 307 then "Temporary Redirect"
  else if s.codeVal = 400 then "Bad Request"
  else if s.codeVal = 401 then "Unauthorized"
  else if s.codeVal = 402 then "Payment Required"
  else if s.codeVal = 403 then "Forbidden"
  else if s.codeVal = 404 then "Not Found"
  else if s.codeVal = 405 then "Method Not Allowed"
  else if s.codeVal = 406 then "Not Acceptable"
  else if s.codeVal = 407 then "Proxy Authentication Required"
  else if s.codeVal = 408 then "Request Timeout"
  else if s.codeVal = 409 then "Conflict"
  else if s.codeVal = 410 then "Gone"
  else if s.codeVal = 411 then "Length Required"
  else if s.codeVal = 412 then "Precondition Failed"
  else if s.codeVal = 413 then "Request Entity Too Large"
  else if s.codeVal = 414 then "Request URI Too Large"
  else if s.codeVal = 415 then "Unsupported Media Type"
  else if s.codeVal = 416 then "Requested Range Not Satisfiable"
  else if s.codeVal = 417 then "Expectation Failed"
  else if s.codeVal = 500 then "Internal Server ErrorStatus"
  else if s.codeVal = 501 then "Not Implemented"
  else if s.codeVal = 502 then "Bad Gateway"
  else if s.codeVal = 503 then "Service Unavailable"
  else if s.codeVal = 504 then "Gateway Timeout"
  else if s.codeVal = 505 then "HTTP Version Not Supported"
  else if s.reasonPhrase.isEmpty then "Unknown"
  else s.reasonPhrase

/-! ## Message model: header bags and HTTPRequest (src/HTTPClient.hpp lines 329-482) -/

/-- `rb::HTTPRequestHeader` (src/HTTPClient.hpp lines 331-358): 19 optional
string-view fields. -/
structure HTTPRequestHeader where
  accept : String := ""
  acceptCharset : String := ""
  acceptEncoding : String := ""
  acceptLanguage : String := ""
  authorization : String := ""
  expect : String := ""
  fromField : String := ""
  host : String := ""
  ifMatch : String := ""
  ifModifiedSince : String := ""
  ifNoneMatch : String := ""
  ifRange : String := ""
  ifUnmodifiedSince : String := ""
  maxForwards : String := ""
  proxyAuthorization : String := ""
  range : String := ""
  referer : String := ""
  te : String := ""
  userAgent : String := ""
  deriving DecidableEq, Repr

/-- `rb::HTTPGeneralHeader` (src/HTTPClient.hpp lines 383-400): 9 optional
string-view fields. -/
structure HTTPGeneralHeader where
  cacheControl : String := ""
  connection : String := ""
  date : String := ""
  pragmaField : String := ""
  trailer : String := ""
  transferEncoding : String := ""
  upgrade : String := ""
  via : String := ""
  warning : String := ""
  deriving DecidableEq, Repr

/-- `rb::HTTPEntityHeader` (src/HTTPClient.hpp lines 404-455): 10 optional
string-view fields plus the free-form extension header slot. -/
structure HTTPEntityHeader where
  allow : String := ""
  contentEncoding : String := ""
  contentLanguage : String := ""
  contentLength : String := ""
  contentLocation : String := ""
  contentMd5 : String := ""
  contentRange : String := ""
  contentType : String := ""
  expires : String := ""
  lastModified : String := ""
  extensionHeader : String := ""
  deriving DecidableEq, Repr

/-- `rb::HTTPRequest` (src/HTTPClient.hpp lines 464-482).

The `version` field is modelled from the spec: the serializer
(src/HTTPSerializationHandle.ipp line 1053) reads `obj_.version`, but the
`HTTPRequest` declaration in src lacks that member (it belongs to a revision
missing from src); per the spec layout the version is the literal
`"HTTP/1.1"`, which is this field's default. -/
structure HTTPRequest where
  method : HTTPMethod := ⟨.INVALID, ""⟩
  uri : String := ""
  version : String := "HTTP/1.1"
  generalHeader : HTTPGeneralHeader := {}
  requestHeader : HTTPRequestHeader := {}
  entityHeader : HTTPEntityHeader := {}
  messageBody : String := ""
  deriving DecidableEq, Repr

/-- Modelled from the spec: `HTTPRequest::valid` is declared at
src/HTTPClient.hpp lines 479-481 but its only definition in src
(src/HTTPClient.cpp lines 134-138) is a `static_assert(false, "Not
implemented")` stub, so the implementation is missing from src.  The spec
states the invariant `valid() == (method.valid() && !uri.empty())`. -/
def HTTPRequest.valid (r : HTTPRequest) : Bool :=
  r.method.valid && !r.uri.isEmpty

/-! ## Serialization engine (src/HTTPSerializationHandle.ipp)

Buffers (`mbed::Span<char>`) are modelled as `List Char`: `serialize` receives
the buffer and returns its contents after the call together with the updated
handle.  Callers extract `gcount()` bytes from the front of the returned
buffer, exactly as the C++ callers do. -/

/-- The `ErrorStatus` recorded for a zero-length buffer
(src/HTTPSerializationHandle.ipp lines 71-74 and the analogous guard of every
other handle). -/
def invalidBufferErr : ErrorStatus :=
  ⟨.einval, "Buffer size must be greater than 0.", 0⟩

/-- The `ErrorStatus` recorded when serialization has already completed
(src/HTTPSerializationHandle.ipp lines 75-80 and analogous guards); the value
records the handle's position. -/
def alreadyCompleteErr (pos : Nat) : ErrorStatus :=
  ⟨.enodata, "Serialization has already completed.", pos⟩

/-- Write `src` over the front of `buf`, keeping the rest of `buf` unchanged
(models `std::copy_n` / the byte-copy loops into a span). -/
def writeChunk (src buf : List Char) : List Char :=
  src ++ buf.drop src.length

/-- `HTTPSerializationHandle<std::string_view>` state
(src/HTTPSerializationHandle.ipp lines 110-163): the viewed object, the sticky
error, the read index and the count of the last call. -/
structure SVHandle where
  obj : List Char
  err : ErrorStatus
  idx : Nat
  gcount : Nat
  deriving DecidableEq, Repr

/-- A freshly constructed string-view handle
(src/HTTPSerializationHandle.ipp lines 114-120). -/
def svFresh (s : String) : SVHandle := ⟨s.data, .ok, 0, 0⟩

/-- `HTTPSerializationHandle<std::string_view>::eof`
(src/HTTPSerializationHandle.ipp line 150): `idx_ >= obj_.size()`. -/
def SVHandle.eof (h : SVHandle) : Bool := h.idx ≥ h.obj.length

/-- `HTTPSerializationHandle<std::string_view>::serialize`
(src/HTTPSerializationHandle.ipp lines 124-146). -/
def SVHandle.serialize (h : SVHandle) (buf : List Char) : List Char × SVHandle :=
  if buf.length = 0 then
    (buf, { h with err := invalidBufferErr })
  else if h.eof then
    (buf, { h with err := alreadyCompleteErr h.idx })
  else
    let g := min buf.length (h.obj.length - h.idx)
    if g = 0 then
      (buf, { h with err := alreadyCompleteErr h.idx, gcount := g })
    else
      (writeChunk ((h.obj.drop h.idx).take g) buf,
       { h with idx := h.idx + g, gcount := g })

/-- `operator bool` of the string-view handle
(src/HTTPSerializationHandle.ipp line 156): `!eof() && !fail()`. -/
def SVHandle.toBool (h : SVHandle) : Bool := !h.eof && !h.err.isError

/-- `HTTPSerializationHandle<const char*>` state
(src/HTTPSerializationHandle.ipp lines 56-105).  `obj` holds the literal's
characters before the terminating NUL and `pos` is `ptr_ - obj_`; `eof()`
(`*ptr_ == '\0'`, line 92) becomes `pos ≥ obj.length`, faithful because the
repository only serializes NUL-free literals through this handle. -/
structure CSHandle where
  obj : List Char
  err : ErrorStatus
  pos : Nat
  gcount : Nat
  deriving DecidableEq, Repr

/-- A freshly constructed C-string handle
(src/HTTPSerializationHandle.ipp lines 59-65). -/
def csFresh (s : String) : CSHandle := ⟨s.data, .ok, 0, 0⟩

/-- `HTTPSerializationHandle<const char*>::eof`
(src/HTTPSerializationHandle.ipp line 92). -/
def CSHandle.eof (h : CSHandle) : Bool := h.pos ≥ h.obj.length

/-- `HTTPSerializationHandle<const char*>::serialize`
(src/HTTPSerializationHandle.ipp lines 69-88): after the two guards, the
byte-copy loop `while (!eof() && gcount_ < buffer.size())` transfers
`min(buffer.size(), remaining)` characters. -/
def CSHandle.serialize (h : CSHandle) (buf : List Char) : List Char × CSHandle :=
  if buf.length = 0 then
    (buf, { h with err := invalidBufferErr })
  else if h.eof then
    (buf, { h with err := alreadyCompleteErr h.pos })
  else
    let g := min buf.length (h.obj.length - h.pos)
    (writeChunk ((h.obj.drop h.pos).take g) buf,
     { h with pos := h.pos + g, gcount := g })

/-- `operator bool` of the C-string handle
(src/HTTPSerializationHandle.ipp line 98). -/
def CSHandle.toBool (h : CSHandle) : Bool := !h.eof && !h.err.isError

/-! ### Header-bag handles

Each header-bag handle (`HTTPSerializationHandle<HTTPRequestHeader>` lines
234-481, `<HTTPGeneralHeader>` lines 644-799, `<HTTPEntityHeader>` lines
802-985) is a `child_idx_` into a fixed case table plus a `std::variant` child
handle, where every case is an instance of the
`RB_HTTP_SERIALIZATION_HANDLE_SERIALIZE_FIELD(field_id, dependent_field,
next_field)` macro:

    case field_id:
      if (!dependent_field.empty() && f(std::get<field_id>(child_handle_)))
        return *this;
      child_handle_.emplace<field_id + 1>(next_field);
      ++child_idx_;

The variant children are only ever C-string or string-view handles, modelled
by the sum `HChild`.  The per-bag data is a dependent-field table and a
fresh-child (slot) table; the stepper `bagGo` is the switch with fallthrough,
one fuel unit per case. -/

/-- A header-bag variant child: a C-string handle (labels, CRLFs) or a
string-view handle (field values). -/
inductive HChild where
  | lit (h : CSHandle)
  | sv (h : SVHandle)
  deriving DecidableEq, Repr

/-- Dispatch `serialize` over the variant child. -/
def HChild.serialize (c : HChild) (buf : List Char) : List Char × HChild :=
  match c with
  | .lit h => let (b, h') := h.serialize buf; (b, .lit h')
  | .sv h => let (b, h') := h.serialize buf; (b, .sv h')

/-- Dispatch `operator bool` over the variant child. -/
def HChild.toBool : HChild → Bool
  | .lit h => h.toBool
  | .sv h => h.toBool

/-- Dispatch `fail()` over the variant child. -/
def HChild.fail : HChild → ErrorStatus
  | .lit h => h.err
  | .sv h => h.err

/-- Dispatch `gcount()` over the variant child. -/
def HChild.gcount : HChild → Nat
  | .lit h => h.gcount
  | .sv h => h.gcount

/-- The state common to the three header-bag handles
(`HTTPSerializationHandleBase` fields plus `child_idx_` and
`child_handle_`). -/
structure BagState where
  idx : Nat
  child : HChild
  gcount : Nat
  err : ErrorStatus
  deriving DecidableEq, Repr

/-- The switch with fallthrough of a header-bag `serialize`, parameterized by
the bag's dependent-field table `dep`, its fresh-child table `slot` (the
handle `emplace`d for a given variant index) and its last case index.  One
fuel unit is consumed per case; callers pass `last + 1 - k` so fuel runs out
exactly when the switch ends.  Mirrors the lambda `f`
(src/HTTPSerializationHandle.ipp lines 263-277): a child that neither hit eof
nor failed consumed the whole buffer (stop); a failed child records its error
(stop); a child at eof adds its count, advances the buffer past the written
bytes and falls through to the next case.

The last case of each bag performs no `emplace` (there is no next variant
slot), hence the `k < last` guard when advancing. -/
def bagGo (dep : Nat → String) (slot : Nat → HChild) (last : Nat) :
    Nat → Nat → HChild → Nat → ErrorStatus → List Char → List Char × BagState
  | 0, k, child, g, e, buf => (buf, ⟨k, child, g, e⟩)
  | fuel + 1, k, child, g, e, buf =>
    if (dep k).isEmpty then
      bagGo dep slot last fuel (k + 1) (if k < last then slot (k + 1) else child) g e buf
    else
      let (buf', child') := child.serialize buf
      if child'.toBool then
        (buf', ⟨k, child', g + child'.gcount, e⟩)
      else
        let e' := child'.fail
        if e'.isError then
          (buf', ⟨k, child', g + child'.gcount, e'⟩)
        else
          let written := buf'.take child'.gcount
          let rest := buf'.drop child'.gcount
          let (restOut, st) :=
            bagGo dep slot last fuel (k + 1) (if k < last then slot (k + 1) else child')
              (g + child'.gcount) e' rest
          (written ++ restOut, st)

/-- A header-bag `serialize` entry: the zero-buffer guard, the eof guard
(`child_idx_ > last`, recording `child_idx_` in the error value), then
`gcount_ = 0` and the switch. -/
def bagSerializeAux (dep : Nat → String) (slot : Nat → HChild) (last : Nat)
    (st : BagState) (buf : List Char) : List Char × BagState :=
  if buf.length = 0 then
    (buf, { st with err := invalidBufferErr })
  else if st.idx > last then
    (buf, { st with err := alreadyCompleteErr st.idx })
  else
    bagGo dep slot last (last + 1 - st.idx) st.idx st.child 0 st.err buf

/-- A fresh header-bag handle state: `child_idx_` 0, the slot-0 child,
`gcount_` 0, no error. -/
def bagFresh (slot : Nat → HChild) : BagState := ⟨0, slot 0, 0, .ok⟩

/-! #### HTTPRequestHeader table (src/HTTPSerializationHandle.ipp lines 234-481)

19 fields, three cases per field (label, value, CRLF), cases 0..56; case `k`
belongs to field `k / 3` and slot `j` holds the label for `j % 3 = 0`, the
field value for `j % 3 = 1` and `"\r\n"` for `j % 3 = 2`. -/

/-- The request-header fields in declaration order (field index 0..18). -/
def rhFieldVal (o : HTTPRequestHeader) : Nat → String
  | 0 => o.accept
  | 1 => o.acceptCharset
  | 2 => o.acceptEncoding
  | 3 => o.acceptLanguage
  | 4 => o.authorization
  | 5 => o.expect
  | 6 => o.fromField
  | 7 => o.host
  | 8 => o.ifMatch
  | 9 => o.ifModifiedSince
  | 10 => o.ifNoneMatch
  | 11 => o.ifRange
  | 12 => o.ifUnmodifiedSince
  | 13 => o.maxForwards
  | 14 => o.proxyAuthorization
  | 15 => o.range
  | 16 => o.referer
  | 17 => o.te
  | 18 => o.userAgent
  | _ => ""

/-- The request-header label literals exactly as written in the source. -/
def rhLabel : Nat → String
  | 0 => "Accept: "
  | 1 => "Accept-Charset: "
  | 2 => "Accept-Encoding: "
  | 3 => "Accept-Language: "
  | 4 => "Authorization: "
  | 5 => "Expect: "
  | 6 => "From: "
  | 7 => "Host: "
  | 8 => "If-Match: "
  | 9 => "If-Modified-Since: "
  | 10 => "If-None-Match: "
  | 11 => "If-Range: "
  | 12 => "If-Unmodified-Since: "
  | 13 => "Max-Forwards: "
  | 14 => "Proxy-Authorization: "
  | 15 => "Range: "
  | 16 => "Referer: "
  | 17 => "TE: "
  | 18 => "User-Agent: "
  | _ => ""

/-- The `dependent_field` of request-header case `k` (each field gates its
full label/value/CRLF triplet). -/
def rhDep (o : HTTPRequestHeader) (k : Nat) : String := rhFieldVal o (k / 3)

/-- The fresh child handle for request-header variant slot `j`. -/
def rhSlot (o : HTTPRequestHeader) (j : Nat) : HChild :=
  match j % 3 with
  | 0 => .lit (csFresh (rhLabel (j / 3)))
  | 1 => .sv (svFresh (rhFieldVal o (j / 3)))
  | _ => .lit (csFresh "\r\n")

/-- `HTTPSerializationHandle<HTTPRequestHeader>::serialize`
(src/HTTPSerializationHandle.ipp lines 249-412), last case 56. -/
def rhSerialize (o : HTTPRequestHeader) (st : BagState) (buf : List Char) :
    List Char × BagState :=
  bagSerializeAux (rhDep o) (rhSlot o) 56 st buf

/-- `HTTPSerializationHandle<HTTPRequestHeader>::eof` (line 416):
`child_idx_ > 56`. -/
def rhEof (st : BagState) : Bool := st.idx > 56

/-! #### HTTPGeneralHeader table (src/HTTPSerializationHandle.ipp lines 644-799)

9 fields, cases 0..26, same triplet layout. -/

/-- The general-header fields in declaration order (field index 0..8). -/
def ghFieldVal (o : HTTPGeneralHeader) : Nat → String
  | 0 => o.cacheControl
  | 1 => o.connection
  | 2 => o.date
  | 3 => o.pragmaField
  | 4 => o.trailer
  | 5 => o.transferEncoding
  | 6 => o.upgrade
  | 7 => o.via
  | 8 => o.warning
  | _ => ""

/-- The general-header label literals exactly as written in the source. -/
def ghLabel : Nat → String
  | 0 => "Cache-Control: "
  | 1 => "Connection: "
  | 2 => "Date: "
  | 3 => "Pragma: "
  | 4 => "Trailer: "
  | 5 => "Transfer-Encoding: "
  | 6 => "Upgrade: "
  | 7 => "Via: "
  | 8 => "Warning: "
  | _ => ""

/-- The `dependent_field` of general-header case `k`. -/
def ghDep (o : HTTPGeneralHeader) (k : Nat) : String := ghFieldVal o (k / 3)

/-- The fresh child handle for general-header variant slot `j`. -/
def ghSlot (o : HTTPGeneralHeader) (j : Nat) : HChild :=
  match j % 3 with
  | 0 => .lit (csFresh (ghLabel (j / 3)))
  | 1 => .sv (svFresh (ghFieldVal o (j / 3)))
  | _ => .lit (csFresh "\r\n")

/-- `HTTPSerializationHandle<HTTPGeneralHeader>::serialize`
(src/HTTPSerializationHandle.ipp lines 659-760), last case 26. -/
def ghSerialize (o : HTTPGeneralHeader) (st : BagState) (buf : List Char) :
    List Char × BagState :=
  bagSerializeAux (ghDep o) (ghSlot o) 26 st buf

/-- `HTTPSerializationHandle<HTTPGeneralHeader>::eof` (line 764):
`child_idx_ > 26`. -/
def ghEof (st : BagState) : Bool := st.idx > 26

/-! #### HTTPEntityHeader table (src/HTTPSerializationHandle.ipp lines 802-985)

10 named fields in triplets (cases 0..29) followed by the extension header:
slot 30 is the extension value and slot 31 its CRLF.  Two quirks are copied
faithfully from the source: the slot-0 label is the literal `"Allow"` without
`": "` (line 811), and case 31 gates the extension header's CRLF on
`obj_.last_modified` rather than on `obj_.extension_header` (line 933). -/

/-- The named entity-header fields in declaration order (field index 0..9). -/
def ehFieldVal (o : HTTPEntityHeader) : Nat → String
  | 0 => o.allow
  | 1 => o.contentEncoding
  | 2 => o.contentLanguage
  | 3 => o.contentLength
  | 4 => o.contentLocation
  | 5 => o.contentMd5
  | 6 => o.contentRange
  | 7 => o.contentType
  | 8 => o.expires
  | 9 => o.lastModified
  | _ => ""

/-- The entity-header label literals exactly as written in the source (slot 0
is `"Allow"`, without the colon-space, as at line 811). -/
def ehLabel : Nat → String
  | 0 => "Allow"
  | 1 => "Content-Encoding: "
  | 2 => "Content-Language: "
  | 3 => "Content-Length: "
  | 4 => "Content-Location: "
  | 5 => "Content-MD5: "
  | 6 => "Content-Range: "
  | 7 => "Content-Type: "
  | 8 => "Expires: "
  | 9 => "Last-Modified: "
  | _ => ""

/-- The `dependent_field` of entity-header case `k`: field `k / 3` for the
named triplets, `extension_header` for case 30, and — copying the source slip
at line 933 — `last_modified` for case 31. -/
def ehDep (o : HTTPEntityHeader) (k : Nat) : String :=
  if k ≤ 29 then ehFieldVal o (k / 3)
  else if k = 30 then o.extensionHeader
  else o.lastModified

/-- The fresh child handle for entity-header variant slot `j`: named triplets
through slot 29, the extension value at slot 30, its CRLF at slot 31. -/
def ehSlot (o : HTTPEntityHeader) (j : Nat) : HChild :=
  if j ≤ 29 then
    match j % 3 with
    | 0 => .lit (csFresh (ehLabel (j / 3)))
    | 1 => .sv (svFresh (ehFieldVal o (j / 3)))
    | _ => .lit (csFresh "\r\n")
  else if j = 30 then .sv (svFresh o.extensionHeader)
  else .lit (csFresh "\r\n")

/-- `HTTPSerializationHandle<HTTPEntityHeader>::serialize`
(src/HTTPSerializationHandle.ipp lines 817-941), last case 31. -/
def ehSerialize (o : HTTPEntityHeader) (st : BagState) (buf : List Char) :
    List Char × BagState :=
  bagSerializeAux (ehDep o) (ehSlot o) 31 st buf

/-- `HTTPSerializationHandle<HTTPEntityHeader>::eof` (line 945):
`child_idx_ > 31`. -/
def ehEof (st : BagState) : Bool := st.idx > 31

/-! ### HTTPRequest handle (src/HTTPSerializationHandle.ipp lines 987-1092)

The request handle walks 11 mandatory parts (cases 0..10, no
`dependent_field` gate in its macro): method, `" "`, uri, `" "`, version,
`"\r\n"`, general header, request header, entity header, `"\r\n"`, body.
`HTTPSerializationHandle<HTTPMethod>` (lines 222-231) is the string-view
handle over `obj.method()`. -/

/-- A request-handle variant child (the `std::variant` at lines 1079-1091). -/
inductive RChild where
  | svh (h : SVHandle)
  | csh (h : CSHandle)
  | gh (st : BagState)
  | rh (st : BagState)
  | eh (st : BagState)
  deriving DecidableEq, Repr

/-- Dispatch `serialize` over the request-handle variant child; the bag
children serialize against the corresponding header bag of `r`. -/
def RChild.serialize (r : HTTPRequest) (c : RChild) (buf : List Char) :
    List Char × RChild :=
  match c with
  | .svh h => let (b, h') := h.serialize buf; (b, .svh h')
  | .csh h => let (b, h') := h.serialize buf; (b, .csh h')
  | .gh st => let (b, st') := ghSerialize r.generalHeader st buf; (b, .gh st')
  | .rh st => let (b, st') := rhSerialize r.requestHeader st buf; (b, .rh st')
  | .eh st => let (b, st') := ehSerialize r.entityHeader st buf; (b, .eh st')

/-- Dispatch `operator bool` over the request-handle variant child (for the
bag children: `!fail() && !eof()`). -/
def RChild.toBool : RChild → Bool
  | .svh h => h.toBool
  | .csh h => h.toBool
  | .gh st => !st.err.isError && !ghEof st
  | .rh st => !st.err.isError && !rhEof st
  | .eh st => !st.err.isError && !ehEof st

/-- Dispatch `fail()` over the request-handle variant child. -/
def RChild.fail : RChild → ErrorStatus
  | .svh h => h.err
  | .csh h => h.err
  | .gh st => st.err
  | .rh st => st.err
  | .eh st => st.err

/-- Dispatch `gcount()` over the request-handle variant child. -/
def RChild.gcount : RChild → Nat
  | .svh h => h.gcount
  | .csh h => h.gcount
  | .gh st => st.gcount
  | .rh st => st.gcount
  | .eh st => st.gcount

/-- The fresh child handle for request variant slot `j` (constructor line 994
for slot 0, the `next_field` arguments at lines 1050-1059 for the rest). -/
def reqSlot (r : HTTPRequest) (j : Nat) : RChild :=
  match j with
  | 0 => .svh (svFresh r.method.methodStr)
  | 1 => .csh (csFresh " ")
  | 2 => .svh (svFresh r.uri)
  | 3 => .csh (csFresh " ")
  | 4 => .svh (svFresh r.version)
  | 5 => .csh (csFresh "\r\n")
  | 6 => .gh (bagFresh (ghSlot r.generalHeader))
  | 7 => .rh (bagFresh (rhSlot r.requestHeader))
  | 8 => .eh (bagFresh (ehSlot r.entityHeader))
  | 9 => .csh (csFresh "\r\n")
  | _ => .svh (svFresh r.messageBody)

/-- `HTTPSerializationHandle<HTTPRequest>` state. -/
structure ReqState where
  idx : Nat
  child : RChild
  gcount : Nat
  err : ErrorStatus
  deriving DecidableEq, Repr

/-- `HTTPSerializationHandle<HTTPRequest>::eof` (line 1073):
`child_idx_ > 10`. -/
def reqEof (st : ReqState) : Bool := st.idx > 10

/-- The switch with fallthrough of the request `serialize` (lines 1048-1065):
the same lambda `f` as the bags but with no `dependent_field` gate — every
part is mandatory.  Case 10 performs no `emplace`, hence the `k < 10` guard
when advancing. -/
def reqGo (r : HTTPRequest) :
    Nat → Nat → RChild → Nat → ErrorStatus → List Char → List Char × ReqState
  | 0, k, child, g, e, buf => (buf, ⟨k, child, g, e⟩)
  | fuel + 1, k, child, g, e, buf =>
    let (buf', child') := RChild.serialize r child buf
    if child'.toBool then
      (buf', ⟨k, child', g + child'.gcount, e⟩)
    else
      let e' := child'.fail
      if e'.isError then
        (buf', ⟨k, child', g + child'.gcount, e'⟩)
      else
        let written := buf'.take child'.gcount
        let rest := buf'.drop child'.gcount
        let (restOut, st) :=
          reqGo r fuel (k + 1) (if k < 10 then reqSlot r (k + 1) else child')
            (g + child'.gcount) e' rest
        (written ++ restOut, st)

/-- `HTTPSerializationHandle<HTTPRequest>::serialize` (lines 1005-1069): the
zero-buffer guard, the eof guard, then `gcount_ = 0` and the switch. -/
def reqSerialize (r : HTTPRequest) (st : ReqState) (buf : List Char) :
    List Char × ReqState :=
  if buf.length = 0 then
    (buf, { st with err := invalidBufferErr })
  else if reqEof st then
    (buf, { st with err := alreadyCompleteErr st.idx })
  else
    reqGo r (11 - st.idx) st.idx st.child 0 st.err buf

/-- A fresh request handle (constructor lines 991-996). -/
def reqFresh (r : HTTPRequest) : ReqState := ⟨0, reqSlot r 0, 0, .ok⟩

/-! ### Chunked-serialization driver

Models a caller that repeatedly hands fixed-size buffers to `serialize` until
`eof()` and concatenates, after each call, the `gcount()` bytes at the front
of the buffer — exactly how `WifiClient::Request` consumes the handle.  Fresh
buffers are filled with `'#'` so that bytes reported by `gcount()` but never
written by `serialize` are visible. -/

/-- Run `serialize` once per buffer size (stopping early at `eof()`),
concatenating the `gcount()` bytes the caller extracts after each call. -/
def serializeChunks (r : HTTPRequest) : ReqState → List Nat → List Char × ReqState
  | st, [] => ([], st)
  | st, n :: rest =>
    if reqEof st then ([], st)
    else
      let (bufOut, st') := reqSerialize r st (List.replicate n '#')
      let (tail, stf) := serializeChunks r st' rest
      (bufOut.take st'.gcount ++ tail, stf)

/-- A single `serialize` call on a fresh handle with a buffer of `n` filler
bytes, returning the `gcount()` bytes the caller extracts plus the final
handle. -/
def serializeOnce (r : HTTPRequest) (n : Nat) : List Char × ReqState :=
  let (bufOut, st) := reqSerialize r (reqFresh r) (List.replicate n '#')
  (bufOut.take st.gcount, st)

/-! ## Client protocol: WifiClient (src/WifiClient.cpp)

`WifiClient::Request` (lines 361-437) is embedded as a function from the
request and an environment (the outcomes of the external interactions: the
admission semaphore `try_acquire_for`, the transport `sendCMD_` and the
confirmation `readCMD_`) to an outcome recording the returned promise's error
and id, the net admission-slot state, whether the data-ready notification got
registered, and the ordered trace of external actions.  The
`HTTPResponsePromise` type itself is declared in a client-protocol header
missing from src (only its callers are present); per the spec a freshly
constructed promise has request id 0 ("0 = unattached") and no recorded
error — modelled from the spec. -/

/-- External actions `WifiClient::Request` performs, in program order. -/
inductive WEvent where
  | semTryAcquire (ok : Bool)
  | transportSend
  | transportRead
  | sigioRegister
  | semRelease
  deriving DecidableEq, Repr

/-- Environment for one `WifiClient::Request` call: whether
`req_sem_.try_acquire_for(send_timeout)` succeeds, and the `ErrorStatus`
results of `sendCMD_` and of the confirmation `readCMD_`. -/
structure WifiEnv where
  semAcquired : Bool
  sendErr : ErrorStatus
  readErr : ErrorStatus
  deriving DecidableEq, Repr

/-- Outcome of one `WifiClient::Request` call. -/
structure RequestOutcome where
  promiseErr : ErrorStatus
  promiseId : Nat
  semHeldAfter : Bool
  registeredNotify : Bool
  trace : List WEvent
  deriving DecidableEq, Repr

/-- The serialization loop of `WifiClient::Request` (lines 401-413):
`while (handle.serialize(buf)) { written_count += handle.gcount(); buf = ...
advance by gcount ... }`.  Returns the final handle state and
`written_count`; note the loop body — and hence the count — excludes the
`gcount()` of the final call, on which `operator bool` was false.  Fuel
`buf.length + 1` over-approximates the iteration count (every continuing
iteration consumed the whole remaining buffer). -/
def runSendLoop (r : HTTPRequest) :
    Nat → ReqState → List Char → ReqState × Nat
  | 0, st, _ => (st, 0)
  | fuel + 1, st, buf =>
    let (buf', st') := reqSerialize r st buf
    if !st'.err.isError && !reqEof st' then
      let (stf, w) := runSendLoop r fuel st' (buf'.drop st'.gcount)
      (stf, st'.gcount + w)
    else (st', 0)

/-- The `ErrorStatus` of the admission-timeout path (lines 383-389). -/
def admissionTimeoutErr : ErrorStatus :=
  ⟨.timeOut, "Failed to acquire request semaphore.", 0⟩

/-- `WifiClient::Request` (src/WifiClient.cpp lines 361-437): admission,
serialization into the scratch buffer, `sendCMD_`, confirmation `readCMD_`,
then `serial_.sigio(callback)` registration and id assignment
(`PromiseGetReqID(promise) = request_.req_id = ++req_id`, modelled with the
previous counter value `prevReqId`).  Every failure path stores the error on
the promise, leaves its id 0, and (except the admission timeout, which never
acquired) releases the semaphore via `test_error` (lines 391-399). -/
def wifiRequest (r : HTTPRequest) (env : WifiEnv) (bufSize : Nat)
    (prevReqId : Nat) : RequestOutcome :=
  if !env.semAcquired then
    ⟨admissionTimeoutErr, 0, false, false, [.semTryAcquire false]⟩
  else
    let (hFinal, _) := runSendLoop r (bufSize + 1) (reqFresh r)
      (List.replicate bufSize '#')
    if hFinal.err.isError then
      ⟨hFinal.err, 0, false, false, [.semTryAcquire true, .semRelease]⟩
    else if env.sendErr.isError then
      ⟨env.sendErr, 0, false, false,
        [.semTryAcquire true, .transportSend, .semRelease]⟩
    else if env.readErr.isError then
      ⟨env.readErr, 0, false, false,
        [.semTryAcquire true, .transportSend, .transportRead, .semRelease]⟩
    else
      ⟨.ok, prevReqId + 1, true, true,
        [.semTryAcquire true, .transportSend, .transportRead, .sigioRegister]⟩

/-- Actions of the data-ready notification callback. -/
inductive NEvent where
  | rcvCallback
  | setFlag
  deriving DecidableEq, Repr

/-- The data-ready notification lambda installed by `WifiClient::Request`
(src/WifiClient.cpp lines 422-433): call the caller's `rcv_callback` if one
was supplied, then set the per-request event flag.  (The flags-error branch
calls `RB_ERROR`, which aborts; it is outside the normal trace.) -/
def notifyRun (hasRcv : Bool) : List NEvent :=
  (if hasRcv then [NEvent.rcvCallback] else []) ++ [NEvent.setFlag]

/-! ### WifiClient::read (src/WifiClient.cpp lines 496-518) and readCMD_
(lines 82-136)

`readCMD_` is embedded for the call shape `read` uses: a non-null buffer of
positive length `len`, delimiter `'\0'`, and a zero-millisecond poll, so a
poll either yields the next available byte or returns 0 (timeout).  `avail`
is the byte sequence the serial link would deliver before a poll times
out. -/

/-- The read loop of `readCMD_` (src/WifiClient.cpp lines 105-133): while
fewer than `len` bytes were taken, poll; an empty `avail` makes the poll time
out, producing `ErrorStatus{MBED_ERROR_CODE_ETIMEDOUT, "Timeout"}` with the
count read so far; a delimiter byte ends the read successfully; reaching
`len` exits the loop successfully. -/
def readCmdLoop (len : Nat) (delim : Char) :
    List Char → Nat → ErrorStatus
  | avail, count =>
    if count < len then
      match avail with
      | [] => ⟨.etimedout, "Timeout", count⟩
      | c :: rest =>
        if c = delim then ⟨.success, "", count + 1⟩
        else readCmdLoop len delim rest (count + 1)
    else ⟨.success, "", count⟩

/-- `WifiClient::read` (src/WifiClient.cpp lines 496-518): reject a stale
request id with `EINVAL`; otherwise run `readCMD_` with a zero-millisecond
poll and, if the resulting error's `code()` equals `MBED_ERROR_CODE_TIME_OUT`,
replace it by `ErrorStatus{MBED_SUCCESS, "No data available.", value}`. -/
def wifiRead (curReqId req : Nat) (bufLen : Nat) (avail : List Char) :
    ErrorStatus :=
  if curReqId ≠ req then ⟨.einval, "Invalid request id.", 0⟩
  else
    let e := readCmdLoop bufLen (Char.ofNat 0) avail 0
    if e.isError then
      if e.code = .timeOut then ⟨.success, "No data available.", e.value⟩
      else e
    else e

/-! ## Concrete instances used by the claims -/

/-- The Scenario-A request with a one-byte body:
`Request{method=GET, uri="/x", host="h"}` plus `message_body = "B"`. -/
def reqGetB : HTTPRequest :=
  { method := HTTPMethod.ofToken "GET", uri := "/x",
    requestHeader := { host := "h" }, messageBody := "B" }

/-- The Scenario-A request exactly as in the spec:
`Request{method=GET, uri="/x", host="h"}`, no other optional field set. -/
def reqGet : HTTPRequest :=
  { method := HTTPMethod.ofToken "GET", uri := "/x",
    requestHeader := { host := "h" } }

/-- An entity-header bag with only `last_modified` set (its `extension_header`
is empty). -/
def entityLastModOnly : HTTPEntityHeader := { lastModified := "t" }

/-- An entity-header bag with only `extension_header` set. -/
def entityExtOnly : HTTPEntityHeader := { extensionHeader := "X: y" }

/-- Serialize an entity-header bag once, from a fresh handle, into a 64-byte
filler buffer; returns the `gcount()` bytes the caller extracts and the final
handle state. -/
def ehRunOnce (o : HTTPEntityHeader) : List Char × BagState :=
  let (b, st) := ehSerialize o (bagFresh (ehSlot o)) (List.replicate 64 '#')
  (b.take st.gcount, st)

/-! ## Claims -/

/-- C1: the claim states that for every request and every sequence of buffer
sizes (each ≥ 1), chunked serialization concatenates to the same bytes as one
large-buffer call.  The code violates this: serializing `reqGetB` with one
64-byte buffer emits the full 29-byte message and reaches eof, but with
chunks `[3, 26, 5]` (total 34 ≥ 29, each ≥ 1) the first chunk boundary falls
exactly after `"GET"`, the next part is then serialized into a zero-length
sub-buffer (recording `InvalidBuffer` in the child, sticky), after which the
cursor never advances past the `" "` part: the concatenation is `"GET "`
followed by a stale filler byte (`gcount()` reports 1 with nothing written),
and eof is never reached. -/
theorem c1_chunked_serialization_diverges :
    (serializeOnce reqGetB 64).1 = "GET /x HTTP/1.1\r\nHost: h\r\n\r\nB".data
    ∧ reqEof (serializeOnce reqGetB 64).2 = true
    ∧ (serializeOnce reqGetB 64).2.err = ErrorStatus.ok
    ∧ (serializeChunks reqGetB (reqFresh reqGetB) [3, 26, 5]).1 = "GET #".data
    ∧ reqEof (serializeChunks reqGetB (reqFresh reqGetB) [3, 26, 5]).2 = false := by
  decide

/-- C2: the claim states that `Request{method=GET, uri="/x", host="h"}`
serializes, for every chunking, to exactly
`"GET /x HTTP/1.1\r\nHost: h\r\n\r\n"`.  A single 64-byte buffer does emit
exactly those 28 bytes (confirming the top-level layout), but with chunks
`[3, 25]` (total 28, each ≥ 1) the caller-visible concatenation is `"GET "`:
the chunk boundary after `"GET"` poisons the handle as in C1.  Moreover even
the single-buffer call ends with `AlreadyComplete` recorded and eof still
false, because the empty `message_body` part errors instead of completing. -/
theorem c2_scenario_a_divergence :
    (serializeOnce reqGet 64).1 = "GET /x HTTP/1.1\r\nHost: h\r\n\r\n".data
    ∧ (serializeOnce reqGet 64).2.gcount = 28
    ∧ (serializeOnce reqGet 64).2.err = alreadyCompleteErr 0
    ∧ reqEof (serializeOnce reqGet 64).2 = false
    ∧ (serializeChunks reqGet (reqFresh reqGet) [3, 25]).1 = "GET ".data
    ∧ reqEof (serializeChunks reqGet (reqFresh reqGet) [3, 25]).2 = false := by
  decide

/-- C3 counterexample: the claim states `StatusCode(301).success() == false`
and that `success()` holds exactly on 200-299; in the code
`HTTPStatusCode(301)` satisfies both `success()` and `redirection()`. -/
theorem c3_counterexample_301 :
    (HTTPStatusCode.mk' 301).success = true
    ∧ (HTTPStatusCode.mk' 301).redirection = true := by
  decide

/-- C3 amended: the five predicates hold on the bands informational 100-101,
success 200-307, redirection 300-307, client_error 400-417, server_error
500-505; all pairs are disjoint except success and redirection, which overlap
exactly on 300-307; `StatusCode(200).success()`,
`StatusCode(301).redirection()` and `StatusCode(301).success()` are all
true. -/
theorem c3_amended_bands : ∀ (c : Int) (p : String),
    ((HTTPStatusCode.mk' c p).informational = true ↔ 100 ≤ c ∧ c ≤ 101)
    ∧ ((HTTPStatusCode.mk' c p).success = true ↔ 200 ≤ c ∧ c ≤ 307)
    ∧ ((HTTPStatusCode.mk' c p).redirection = true ↔ 300 ≤ c ∧ c ≤ 307)
    ∧ ((HTTPStatusCode.mk' c p).clientError = true ↔ 400 ≤ c ∧ c ≤ 417)
    ∧ ((HTTPStatusCode.mk' c p).serverError = true ↔ 500 ≤ c ∧ c ≤ 505)
    ∧ ¬((HTTPStatusCode.mk' c p).informational = true
        ∧ (HTTPStatusCode.mk' c p).success = true)
    ∧ ¬((HTTPStatusCode.mk' c p).informational = true
        ∧ (HTTPStatusCode.mk' c p).redirection = true)
    ∧ ¬((HTTPStatusCode.mk' c p).informational = true
        ∧ (HTTPStatusCode.mk' c p).clientError = true)
    ∧ ¬((HTTPStatusCode.mk' c p).informational = true
        ∧ (HTTPStatusCode.mk' c p).serverError = true)
    ∧ ¬((HTTPStatusCode.mk' c p).success = true
        ∧ (HTTPStatusCode.mk' c p).clientError = true)
    ∧ ¬((HTTPStatusCode.mk' c p).success = true
        ∧ (HTTPStatusCode.mk' c p).serverError = true)
    ∧ ¬((HTTPStatusCode.mk' c p).redirection = true
        ∧ (HTTPStatusCode.mk' c p).clientError = true)
    ∧ ¬((HTTPStatusCode.mk' c p).redirection = true
        ∧ (HTTPStatusCode.mk' c p).serverError = true)
    ∧ ¬((HTTPStatusCode.mk' c p).clientError = true
        ∧ (HTTPStatusCode.mk' c p).serverError = true)
    ∧ (((HTTPStatusCode.mk' c p).success = true
        ∧ (HTTPStatusCode.mk' c p).redirection = true) ↔ 300 ≤ c ∧ c ≤ 307) := by
  intro c p
  refine ⟨?_, ?_, ?_, ?_, ?_, ?_, ?_, ?_, ?_, ?_, ?_, ?_, ?_, ?_, ?_⟩ <;>
    simp [HTTPStatusCode.mk', HTTPStatusCode.informational, HTTPStatusCode.success,
      HTTPStatusCode.redirection, HTTPStatusCode.clientError,
      HTTPStatusCode.serverError] <;> omega

/-- C3 amended, instantiated: the scenario facts at codes 200 and 301,
derived from the band theorem. -/
theorem c3_amended_bands_witness :
    (HTTPStatusCode.mk' 200 "Unknown").success = true
    ∧ (HTTPStatusCode.mk' 301 "Unknown").redirection = true
    ∧ (HTTPStatusCode.mk' 301 "Unknown").success = true := by
  refine ⟨?_, ?_, ?_⟩
  · exact (c3_amended_bands 200 "Unknown").2.1.mpr (by decide)
  · exact (c3_amended_bands 301 "Unknown").2.2.1.mpr (by decide)
  · exact (c3_amended_bands 301 "Unknown").2.1.mpr (by decide)

/-- C4: the claim states that an empty optional field's label, value and CRLF
contribute zero bytes.  The entity-header handle violates this for the
extension slot: with `last_modified = "t"` and `extension_header` empty, the
serialized output is `"Last-Modified: t\r\n\r\n"` — the empty extension field
contributed a stray CRLF, because case 31 gates the extension header's CRLF
on `last_modified` (src/HTTPSerializationHandle.ipp line 933); dually, with
only `extension_header = "X: y"` set, the output is `"X: y"` with its CRLF
omitted. -/
theorem c4_entity_extension_crlf_bug :
    (ehRunOnce entityLastModOnly).1 = "Last-Modified: t\r\n\r\n".data
    ∧ ehEof (ehRunOnce entityLastModOnly).2 = true
    ∧ (ehRunOnce entityLastModOnly).2.err = ErrorStatus.ok
    ∧ (ehRunOnce entityExtOnly).1 = "X: y".data
    ∧ ehEof (ehRunOnce entityExtOnly).2 = true
    ∧ (ehRunOnce entityExtOnly).2.err = ErrorStatus.ok := by
  decide

/-- C10: an `HTTPStatusCode` constructed with code 0 (the default `INVALID_`)
has `valid() == false`, and its `reason()` is `"Invalid Status Code"` for
every caller-supplied reason phrase. -/
theorem c10_invalid_status_reason : ∀ p : String,
    (HTTPStatusCode.mk' 0 p).valid = false
    ∧ (HTTPStatusCode.mk' 0 p).reason = "Invalid Status Code" := by
  intro p
  exact ⟨rfl, rfl⟩

/-- C5: for every serialization handle — string-view, C-string, the three
header bags and the request handle — `serialize` on a zero-length buffer
records `InvalidBuffer` (`EINVAL`, "Buffer size must be greater than 0."),
and `serialize` on a non-empty buffer once `eof()` holds records
`AlreadyComplete` (`ENODATA`) and leaves the buffer untouched; neither call
is a silent no-op. -/
theorem c5_guard_errors :
    (∀ (buf : List Char) (h : SVHandle),
      (buf.length = 0 → h.serialize buf = (buf, { h with err := invalidBufferErr }))
      ∧ (buf.length ≠ 0 → h.eof = true →
          h.serialize buf = (buf, { h with err := alreadyCompleteErr h.idx })))
    ∧ (∀ (buf : List Char) (h : CSHandle),
      (buf.length = 0 → h.serialize buf = (buf, { h with err := invalidBufferErr }))
      ∧ (buf.length ≠ 0 → h.eof = true →
          h.serialize buf = (buf, { h with err := alreadyCompleteErr h.pos })))
    ∧ (∀ (buf : List Char) (o : HTTPGeneralHeader) (st : BagState),
      (buf.length = 0 → ghSerialize o st buf = (buf, { st with err := invalidBufferErr }))
      ∧ (buf.length ≠ 0 → ghEof st = true →
          ghSerialize o st buf = (buf, { st with err := alreadyCompleteErr st.idx })))
    ∧ (∀ (buf : List Char) (o : HTTPRequestHeader) (st : BagState),
      (buf.length = 0 → rhSerialize o st buf = (buf, { st with err := invalidBufferErr }))
      ∧ (buf.length ≠ 0 → rhEof st = true →
          rhSerialize o st buf = (buf, { st with err := alreadyCompleteErr st.idx })))
    ∧ (∀ (buf : List Char) (o : HTTPEntityHeader) (st : BagState),
      (buf.length = 0 → ehSerialize o st buf = (buf, { st with err := invalidBufferErr }))
      ∧ (buf.length ≠ 0 → ehEof st = true →
          ehSerialize o st buf = (buf, { st with err := alreadyCompleteErr st.idx })))
    ∧ (∀ (buf : List Char) (r : HTTPRequest) (st : ReqState),
      (buf.length = 0 → reqSerialize r st buf = (buf, { st with err := invalidBufferErr }))
      ∧ (buf.length ≠ 0 → reqEof st = true →
          reqSerialize r st buf = (buf, { st with err := alreadyCompleteErr st.idx }))) := by
  refine ⟨?_, ?_, ?_, ?_, ?_, ?_⟩
  · intro buf h
    refine ⟨fun h0 => ?_, fun h0 he => ?_⟩
    · simp [SVHandle.serialize, h0]
    · simp [SVHandle.serialize, h0, he]
  · intro buf h
    refine ⟨fun h0 => ?_, fun h0 he => ?_⟩
    · simp [CSHandle.serialize, h0]
    · simp [CSHandle.serialize, h0, he]
  · intro buf o st
    refine ⟨fun h0 => ?_, fun h0 he => ?_⟩
    · simp [ghSerialize, bagSerializeAux, h0]
    · have hi : st.idx > 26 := by simpa [ghEof] using he
      simp [ghSerialize, bagSerializeAux, h0, hi]
  · intro buf o st
    refine ⟨fun h0 => ?_, fun h0 he => ?_⟩
    · simp [rhSerialize, bagSerializeAux, h0]
    · have hi : st.idx > 56 := by simpa [rhEof] using he
      simp [rhSerialize, bagSerializeAux, h0, hi]
  · intro buf o st
    refine ⟨fun h0 => ?_, fun h0 he => ?_⟩
    · simp [ehSerialize, bagSerializeAux, h0]
    · have hi : st.idx > 31 := by simpa [ehEof] using he
      simp [ehSerialize, bagSerializeAux, h0, hi]
  · intro buf r st
    refine ⟨fun h0 => ?_, fun h0 he => ?_⟩
    · simp [reqSerialize, h0]
    · simp [reqSerialize, h0, he]

/-- C5 instantiated: the zero-length-buffer error on a fresh string-view
handle and the post-eof error on a spent C-string handle. -/
theorem c5_guard_errors_witness :
    SVHandle.serialize (svFresh "a") [] =
      ([], { svFresh "a" with err := invalidBufferErr })
    ∧ CSHandle.serialize ⟨"a".data, ErrorStatus.ok, 1, 1⟩ ['#'] =
      (['#'], { (⟨"a".data, ErrorStatus.ok, 1, 1⟩ : CSHandle) with
        err := alreadyCompleteErr 1 }) := by
  refine ⟨(c5_guard_errors.1 [] (svFresh "a")).1 rfl, ?_⟩
  exact (c5_guard_errors.2.1 ['#'] ⟨"a".data, ErrorStatus.ok, 1, 1⟩).2
    (by decide) (by decide)

/-- C6: for every `HTTPRequest r`, `r.valid()` is true exactly when
`r.method.valid()` is true and `r.uri` is non-empty (with
`HTTPRequest::valid` modelled from the spec, its src definition being a
`static_assert(false)` stub, and `HTTPMethod::valid` taken from the
source). -/
theorem c6_request_valid : ∀ r : HTTPRequest,
    r.valid = (r.method.valid && !r.uri.isEmpty)
    ∧ (r.valid = true ↔ r.method.code ≠ MethodCode.INVALID ∧ r.uri.isEmpty = false) := by
  intro r
  refine ⟨rfl, ?_⟩
  simp [HTTPRequest.valid, HTTPMethod.valid]

/-- C6 instantiated: the Scenario-A request is valid. -/
theorem c6_request_valid_witness : reqGet.valid = true := by
  exact (c6_request_valid reqGet).2.mpr ⟨by decide, by decide⟩

/-- C7: if the admission semaphore cannot be acquired within `send_timeout`,
`WifiClient::Request` returns a promise carrying the `Admission` timeout
error with id 0, holds no admission slot and performs no transport activity;
and every failed `Request()` (admission, serialization, send or
confirmation-read failure) returns a promise with non-empty `fail()` and id
0, with no admission slot left held. -/
theorem c7_failed_request : ∀ (r : HTTPRequest) (env : WifiEnv)
    (bufSize prevId : Nat) (o : RequestOutcome),
    o = wifiRequest r env bufSize prevId →
    ((env.semAcquired = false →
        o.promiseErr = admissionTimeoutErr ∧ o.promiseId = 0
        ∧ o.semHeldAfter = false ∧ o.registeredNotify = false
        ∧ WEvent.transportSend ∉ o.trace)
     ∧ (o.promiseErr.isError = true → o.promiseId = 0 ∧ o.semHeldAfter = false)) := by
  intro r env bufSize prevId o ho
  subst ho
  by_cases hs : env.semAcquired
  · constructor
    · intro h0
      rw [h0] at hs
      exact absurd hs (by simp)
    · simp only [wifiRequest, hs, Bool.not_true, Bool.false_eq_true, if_false]
      split
      · intro _; exact ⟨rfl, rfl⟩
      · split
        · intro _; exact ⟨rfl, rfl⟩
        · split
          · intro _; exact ⟨rfl, rfl⟩
          · intro hfail
            exact absurd hfail (by simp [ErrorStatus.ok, ErrorStatus.isError])
  · have hs' : env.semAcquired = false := by
      revert hs; cases env.semAcquired <;> simp
    have hw : wifiRequest r env bufSize prevId
        = ⟨admissionTimeoutErr, 0, false, false, [WEvent.semTryAcquire false]⟩ := by
      simp [wifiRequest, hs']
    rw [hw]
    exact ⟨fun _ => ⟨rfl, rfl, rfl, rfl, by decide⟩, fun _ => ⟨rfl, rfl⟩⟩

/-- C7 instantiated: an admission-timeout call returns id 0, no held slot,
the timeout error, and no transport activity. -/
theorem c7_failed_request_witness :
    (wifiRequest reqGet ⟨false, ErrorStatus.ok, ErrorStatus.ok⟩ 64 0).promiseId = 0
    ∧ (wifiRequest reqGet ⟨false, ErrorStatus.ok, ErrorStatus.ok⟩ 64 0).semHeldAfter = false
    ∧ (wifiRequest reqGet ⟨false, ErrorStatus.ok, ErrorStatus.ok⟩ 64 0).promiseErr
        = admissionTimeoutErr := by
  have h := c7_failed_request reqGet ⟨false, ErrorStatus.ok, ErrorStatus.ok⟩ 64 0
    (wifiRequest reqGet ⟨false, ErrorStatus.ok, ErrorStatus.ok⟩ 64 0) rfl
  exact ⟨(h.1 rfl).2.1, (h.1 rfl).2.2.1, (h.1 rfl).1⟩

/-- C8: in every `WifiClient::Request` trace, the data-ready notification is
registered only strictly after the request was handed to the transport's send
primitive (so it cannot fire earlier), and the installed notification first
invokes the caller's `rcv_callback` when one was supplied and only afterwards
sets the per-request event flag. -/
theorem c8_notify_ordering : ∀ (r : HTTPRequest) (env : WifiEnv)
    (bufSize prevId : Nat) (hasRcv : Bool) (o : RequestOutcome),
    o = wifiRequest r env bufSize prevId →
    ((WEvent.sigioRegister ∈ o.trace →
        ∃ i j, i < j ∧ o.trace.get? i = some WEvent.transportSend
          ∧ o.trace.get? j = some WEvent.sigioRegister)
     ∧ (hasRcv = true → notifyRun hasRcv = [NEvent.rcvCallback, NEvent.setFlag])
     ∧ (hasRcv = false → notifyRun hasRcv = [NEvent.setFlag])) := by
  intro r env bufSize prevId hasRcv o ho
  subst ho
  refine ⟨?_, fun h => by simp [notifyRun, h], fun h => by simp [notifyRun, h]⟩
  by_cases hs : env.semAcquired
  · simp only [wifiRequest, hs, Bool.not_true, Bool.false_eq_true, if_false]
    split
    · intro hmem; simp at hmem
    · split
      · intro hmem; simp at hmem
      · split
        · intro hmem; simp at hmem
        · intro _
          exact ⟨1, 3, by norm_num, rfl, rfl⟩
  · have hs' : env.semAcquired = false := by
      revert hs; cases env.semAcquired <;> simp
    simp only [wifiRequest, hs', Bool.not_false, if_true]
    intro hmem
    simp at hmem

/-- C8 instantiated: a successful call registers the notification after the
send, and the callback with a supplied `rcv_callback` runs it before setting
the flag. -/
theorem c8_notify_ordering_witness :
    (∃ i j, i < j
      ∧ (wifiRequest reqGetB ⟨true, ErrorStatus.ok, ErrorStatus.ok⟩ 64 0).trace.get? i
          = some WEvent.transportSend
      ∧ (wifiRequest reqGetB ⟨true, ErrorStatus.ok, ErrorStatus.ok⟩ 64 0).trace.get? j
          = some WEvent.sigioRegister)
    ∧ notifyRun true = [NEvent.rcvCallback, NEvent.setFlag] := by
  have h := c8_notify_ordering reqGetB ⟨true, ErrorStatus.ok, ErrorStatus.ok⟩ 64 0 true
    (wifiRequest reqGetB ⟨true, ErrorStatus.ok, ErrorStatus.ok⟩ 64 0) rfl
  exact ⟨h.1 (by decide), h.2.1 rfl⟩

/-- C9: the claim states that `WifiClient::read` with the attached id and no
available data returns `MBED_SUCCESS` with message "No data available.".  In
the code it returns `ErrorStatus{MBED_ERROR_CODE_ETIMEDOUT, "Timeout"}` — an
error — because `readCMD_` reports its poll timeout as `ETIMEDOUT` while the
conversion branch in `read` tests for `MBED_ERROR_CODE_TIME_OUT`, a code
`readCMD_` never produces (third conjunct), so the conversion is dead
code. -/
theorem c9_read_timeout_surfaced :
    wifiRead 1 1 8 [] = ⟨.etimedout, "Timeout", 0⟩
    ∧ (wifiRead 1 1 8 []).isError = true
    ∧ ∀ (len : Nat) (d : Char) (avail : List Char) (count : Nat),
        decide ((readCmdLoop len d avail count).code = MbedErrorCode.timeOut) = false := by
  refine ⟨by decide, by decide, ?_⟩
  intro len d avail
  induction avail with
  | nil =>
    intro count
    simp only [readCmdLoop]
    split
    · rfl
    · rfl
  | cons c rest ih =>
    intro count
    simp only [readCmdLoop]
    split
    · split
      · rfl
      · exact ih (count + 1)
    · rfl

end RB
